import Mathlib

/-!
Verification of the pcs command-dispatch / environment-synchronization layer
(`pcs/cli/common/lib_wrapper.py`) and of the daemon request-serialization layer.

The CLI-side definitions are shallow embeddings of the source file
`pcs/cli/common/lib_wrapper.py`.  The `LibraryEnvironment` internals
(`pcs/lib/env.py`), the middleware chain (`pcs/cli/common/middleware.py`),
the report presenter (`pcs/cli/common/reports.py`) and the daemon application
(`pcs/daemon/app/sinatra_remote.py`) are not part of the sources at hand and
are modelled from the specification where needed; each such definition carries
a doc comment saying so.
-/

/-- Front-end (CLI) environment.  Mirrors the fields of the CLI `Env` object
that `lib_wrapper.py` reads and writes: report sink, caller identity and
groups, the optional override blobs (`cib_data`, `corosync_conf_data`,
`booth`), the credential-store accessor and the request timeout.
Configuration blobs are opaque strings; the booth field is a mapping from
string keys to opaque string values. -/
structure CliEnv where
  report_processor : String
  user : String
  groups : List String
  cib_data : Option String
  corosync_conf_data : Option String
  booth : Option (List (String × String))
  known_hosts_getter : String
  request_timeout : Option Nat
deriving DecidableEq

/-- Modelled from the spec: the ticket-manager (booth) part of the library
environment (`pcs/lib/env.py` is not among the sources).  It holds an opaque
mutable state seeded from the front environment's booth blob; commands may
replace the state in memory. -/
structure BoothLibEnv where
  state : List (String × String)
deriving DecidableEq

/-- Modelled from the spec: `booth.export()` — the auxiliary "modified" view
of the ticket-manager state, an opaque serialized blob. -/
def booth_export (b : BoothLibEnv) : String :=
  String.intercalate ";" (b.state.map (fun p => p.1 ++ "=" ++ p.2))

/-- Modelled from the spec: the per-call library environment
(`pcs.lib.env.LibraryEnvironment`, not among the sources).  Per the spec it
records, for each resource kind, whether it is `live` or `mocked`; the
liveness marks are fixed at construction (a resource is mocked iff an
override blob was supplied) while the data fields are the mutable in-memory
blobs. -/
structure LibraryEnvironment where
  logger : String
  report_processor : String
  user : String
  groups : List String
  is_cib_live : Bool
  cib_data : Option String
  is_corosync_conf_live : Bool
  corosync_conf_data : Option String
  booth : Option BoothLibEnv
  known_hosts_getter : String
  request_timeout : Option Nat
deriving DecidableEq

/-- Modelled from the spec: accessor returning the command's final in-memory
cib blob of a mocked library environment. -/
def LibraryEnvironment.final_mocked_cib_content (e : LibraryEnvironment) : Option String :=
  e.cib_data

/-- Modelled from the spec: accessor returning the in-memory corosync
configuration blob. -/
def LibraryEnvironment.get_corosync_conf_data (e : LibraryEnvironment) : Option String :=
  e.corosync_conf_data

/-- Embedding of `cli_env_to_lib_env` (lib_wrapper.py lines 39-50): builds the
per-call library environment from the front environment.  A resource is
marked live exactly when no override blob is present. -/
def cli_env_to_lib_env (cli : CliEnv) : LibraryEnvironment where
  logger := "pcs"
  report_processor := cli.report_processor
  user := cli.user
  groups := cli.groups
  is_cib_live := cli.cib_data.isNone
  cib_data := cli.cib_data
  is_corosync_conf_live := cli.corosync_conf_data.isNone
  corosync_conf_data := cli.corosync_conf_data
  booth := cli.booth.map (fun m => ⟨m⟩)
  known_hosts_getter := cli.known_hosts_getter
  request_timeout := cli.request_timeout

/-- Lookup in a string-keyed mapping (Python dict read). -/
def lookupKey (m : List (String × String)) (k : String) : Option String :=
  match m with
  | [] => none
  | (k0, v0) :: rest => if k0 = k then some v0 else lookupKey rest k

/-- Store into a string-keyed mapping (Python dict item assignment:
replaces the value if the key exists, appends otherwise). -/
def setKey (m : List (String × String)) (k : String) (v : String) : List (String × String) :=
  match m with
  | [] => [(k, v)]
  | (k0, v0) :: rest => if k0 = k then (k, v) :: rest else (k0, v0) :: setKey rest k v

/-- Export of an optional booth library environment.  After
`cli_env_to_lib_env`, a present front booth blob guarantees a present library
booth state (the source comment: "if is in cli_env booth is in lib_env as
well"), so the `none` branch is unreachable on the path the source takes. -/
def booth_export_opt : Option BoothLibEnv → String
  | some b => booth_export b
  | none => ""

/-- First statement pair of `lib_env_to_cli_env` (lines 53-54): when the cib
is mocked, copy the final in-memory cib blob back into the front
environment. -/
def reflect_cib (lib : LibraryEnvironment) (cli : CliEnv) : CliEnv :=
  if lib.is_cib_live then cli
  else { cli with cib_data := lib.final_mocked_cib_content }

/-- Second statement pair of `lib_env_to_cli_env` (lines 55-56): when the
corosync configuration is mocked, copy its in-memory blob back. -/
def reflect_corosync (lib : LibraryEnvironment) (cli : CliEnv) : CliEnv :=
  if lib.is_corosync_conf_live then cli
  else { cli with corosync_conf_data := lib.get_corosync_conf_data }

/-- Booth step of `lib_env_to_cli_env` (lines 67-68): when the front booth
mapping is truthy (present and non-empty — a Python empty dict is falsy),
store the exported booth state under the key `"modified_env"` inside the
existing mapping. -/
def reflect_booth (lib : LibraryEnvironment) (cli : CliEnv) : CliEnv :=
  match cli.booth with
  | none => cli
  | some m =>
    if m = [] then cli
    else { cli with booth := some (setKey m "modified_env" (booth_export_opt lib.booth)) }

/-- Embedding of `lib_env_to_cli_env` (lib_wrapper.py lines 52-70): reflects
mocked-resource mutations from the library environment back into the front
environment, in source order (cib, corosync configuration, booth). -/
def lib_env_to_cli_env (lib : LibraryEnvironment) (cli : CliEnv) : CliEnv :=
  reflect_booth lib (reflect_corosync lib (reflect_cib lib cli))

/-- Severity tag of one structured report. -/
inductive Severity where
  | error
  | warning
  | info
deriving DecidableEq

/-- One severity-tagged diagnostic item. -/
structure Report where
  severity : Severity
  message : String
deriving DecidableEq

/-- The structured-failure batch raised by library commands
(`pcs.lib.errors.LibraryEnvError`): it carries the collected reports in its
`unprocessed` field. -/
structure LibraryEnvError where
  unprocessed : List Report
deriving DecidableEq

/-- Modelled from the spec: severity-appropriate presentation of one report
(`pcs/cli/common/reports.py` is not among the sources). -/
def presentReport (r : Report) : String :=
  match r.severity with
  | Severity.error => "Error: " ++ r.message
  | Severity.warning => "Warning: " ++ r.message
  | Severity.info => r.message

/-- Modelled from the spec: `process_library_reports` emits every collected
report, each with its severity-appropriate presentation, in order.  The
result is the list of emitted lines. -/
def process_library_reports (rs : List Report) : List String :=
  rs.map presentReport

/-- Embedding of the inner `run` closure of `bind` (lib_wrapper.py lines
73-82): build the library environment, run the library command on it, and on
normal return only reflect the changes back into the front environment.  A
raised structured failure propagates and leaves the front environment as it
was.  The library command is any function mutating the library environment
(modelled by returning the new environment) or raising a structured-failure
batch (modelled by `Except.error`). -/
def bind_run {α β : Type}
    (run_library_command : LibraryEnvironment → β → Except LibraryEnvError (α × LibraryEnvironment))
    (cli : CliEnv) (args : β) : Except LibraryEnvError α × CliEnv :=
  match run_library_command (cli_env_to_lib_env cli) args with
  | Except.error e => (Except.error e, cli)
  | Except.ok (r, lib2) => (Except.ok r, lib_env_to_cli_env lib2 cli)

/-- Modelled from the spec: one middleware unit is a before/after pair
(snapshot acquisition, mutation flush) acting on the front environment
(`pcs/cli/common/middleware.py` is not among the sources). -/
structure MiddlewareUnit (β : Type) where
  before : CliEnv → β → CliEnv × β
  after : CliEnv → CliEnv

/-- Modelled from the spec: `run_with_middleware` wraps the next layer with
each middleware unit in chain order; a raised structured failure unwinds
through the chain, skipping the mutation-flush halves. -/
def run_with_middleware {α β : Type} (chain : List (MiddlewareUnit β))
    (next : CliEnv → β → Except LibraryEnvError α × CliEnv)
    (cli : CliEnv) (args : β) : Except LibraryEnvError α × CliEnv :=
  match chain with
  | [] => next cli args
  | u :: rest =>
    let p := u.before cli args
    match run_with_middleware rest next p.1 p.2 with
    | (Except.error e, cliE) => (Except.error e, cliE)
    | (Except.ok r, cli3) => (Except.ok r, u.after cli3)

/-- Terminal outcome of one CLI command invocation: either the command's
result, or a process exit with the emitted report lines and the exit code. -/
inductive CliOutcome (α : Type) where
  | success (result : α)
  | exited (emitted : List String) (exit_code : Nat)
deriving DecidableEq

/-- Embedding of `decorated_run` of `bind` (lib_wrapper.py lines 84-93): run
the command through the middleware chain; on success return the result
untouched; on a raised structured-failure batch emit every report via
`process_library_reports` and exit the process with code 1. -/
def decorated_run {α β : Type} (chain : List (MiddlewareUnit β))
    (cmd : LibraryEnvironment → β → Except LibraryEnvError (α × LibraryEnvironment))
    (cli : CliEnv) (args : β) : CliOutcome α :=
  match (run_with_middleware chain (bind_run cmd) cli args).1 with
  | Except.ok r => CliOutcome.success r
  | Except.error e => CliOutcome.exited (process_library_reports e.unprocessed) 1

/-- The middleware factory as read by `load_module`: each field is an opaque
descriptor of one middleware builder (`cib`, `corosync_conf_existing`,
`booth_conf`). -/
structure MiddlewareFactory where
  cib : String
  corosync_conf_existing : String
  booth_conf : String
deriving DecidableEq

/-- One built command-group operation set, the result of `bind_all` (the
source builds it as the namedtuple `wrapper`): it records the front
environment captured by the `bind` closures, the middleware chain built for
the group (in `middleware.build` argument order) and the exposed command
names (the dictionary keys). -/
structure Wrapper where
  env : CliEnv
  middlewares : List String
  commands : List String
deriving DecidableEq

/-- The failure raised when a group name is outside the enumerated set
(the spec's `UnknownGroupError`); carries the message of the raised
exception. -/
abbrev UnknownGroupError := String

/-- Embedding of `bind_all` (lib_wrapper.py lines 95-99): builds the
operation set of one group, every exposed command bound to `env` through the
given middleware chain. -/
def bind_all (env : CliEnv) (mws : List String) (cmds : List String) : Wrapper where
  env := env
  middlewares := mws
  commands := cmds

/-- Embedding of `load_module` (lib_wrapper.py lines 107-418): the fixed
enumerated dispatch from a group name to its operation set, branches in
source order; any other name raises (`Except.error`). -/
def load_module (env : CliEnv) (mwf : MiddlewareFactory) (name : String) :
    Except UnknownGroupError Wrapper :=
  if name = "acl" then Except.ok (bind_all env [mwf.cib]
    ["create_role", "remove_role", "assign_role_not_specific",
     "assign_role_to_target", "assign_role_to_group",
     "unassign_role_not_specific", "unassign_role_from_target",
     "unassign_role_from_group", "create_target", "create_group",
     "remove_target", "remove_group", "add_permission", "remove_permission",
     "get_config"])
  else if name = "alert" then Except.ok (bind_all env [mwf.cib]
    ["create_alert", "update_alert", "remove_alert", "add_recipient",
     "update_recipient", "remove_recipient", "get_all_alerts"])
  else if name = "booth" then Except.ok (bind_all env [mwf.booth_conf, mwf.cib]
    ["config_setup", "config_destroy", "config_text", "config_ticket_add",
     "config_ticket_remove", "create_in_cluster", "remove_from_cluster",
     "restart", "config_sync", "enable", "disable", "start", "stop", "pull",
     "status", "ticket_grant", "ticket_revoke"])
  else if name = "cluster" then Except.ok (bind_all env [mwf.cib]
    ["add_link", "add_nodes", "node_clear", "remove_links", "remove_nodes",
     "remove_nodes_from_cib", "setup", "update_link", "verify"])
  else if name = "remote_node" then Except.ok
    (bind_all env [mwf.cib, mwf.corosync_conf_existing]
    ["node_add_remote", "node_add_guest", "node_remove_remote",
     "node_remove_guest"])
  else if name = "constraint_colocation" then Except.ok (bind_all env [mwf.cib]
    ["set", "show"])
  else if name = "constraint_order" then Except.ok (bind_all env [mwf.cib]
    ["set", "show"])
  else if name = "constraint_ticket" then Except.ok (bind_all env [mwf.cib]
    ["set", "show", "add", "remove"])
  else if name = "fencing_topology" then Except.ok (bind_all env [mwf.cib]
    ["add_level", "get_config", "remove_all_levels",
     "remove_levels_by_params", "verify"])
  else if name = "node" then Except.ok (bind_all env [mwf.cib]
    ["maintenance_unmaintenance_all", "maintenance_unmaintenance_list",
     "maintenance_unmaintenance_local", "standby_unstandby_all",
     "standby_unstandby_list", "standby_unstandby_local"])
  else if name = "pcsd" then Except.ok (bind_all env []
    ["synchronize_ssl_certificate"])
  else if name = "qdevice" then Except.ok (bind_all env []
    ["status", "setup", "destroy", "start", "stop", "kill", "enable",
     "disable", "client_net_setup", "client_net_import_certificate",
     "client_net_destroy", "sign_net_cert_request"])
  else if name = "quorum" then Except.ok
    (bind_all env [mwf.corosync_conf_existing]
    ["add_device", "get_config", "remove_device", "remove_device_heuristics",
     "set_expected_votes_live", "set_options", "status", "status_device",
     "update_device"])
  else if name = "resource_agent" then Except.ok (bind_all env []
    ["describe_agent", "list_agents",
     "list_agents_for_standard_and_provider", "list_ocf_providers",
     "list_standards"])
  else if name = "resource" then Except.ok
    (bind_all env [mwf.cib, mwf.corosync_conf_existing]
    ["ban", "bundle_create", "bundle_reset", "bundle_update", "create",
     "create_as_clone", "create_in_group", "create_into_bundle", "disable",
     "enable", "get_failcounts", "group_add", "manage", "move", "unmanage",
     "unmove_unban"])
  else if name = "cib_options" then Except.ok (bind_all env [mwf.cib]
    ["set_operations_defaults", "set_resources_defaults"])
  else if name = "stonith" then Except.ok
    (bind_all env [mwf.cib, mwf.corosync_conf_existing]
    ["create", "create_in_group", "history_get_text", "history_cleanup",
     "history_update"])
  else if name = "sbd" then Except.ok (bind_all env []
    ["enable_sbd", "disable_sbd", "get_cluster_sbd_status",
     "get_cluster_sbd_config", "get_local_sbd_config",
     "initialize_block_devices", "get_local_devices_info", "set_message",
     "get_local_available_watchdogs", "test_local_watchdog"])
  else if name = "stonith_agent" then Except.ok (bind_all env []
    ["describe_agent", "list_agents"])
  else Except.error ("No library part " ++ name)

/-- The fixed enumerated set of command-group names, in the branch order of
`load_module`. -/
def declaredGroupNames : List String :=
  ["acl", "alert", "booth", "cluster", "remote_node", "constraint_colocation",
   "constraint_order", "constraint_ticket", "fencing_topology", "node",
   "pcsd", "qdevice", "quorum", "resource_agent", "resource", "cib_options",
   "stonith", "sbd", "stonith_agent"]

/-- State of the process-wide module cache `_CACHE` (lib_wrapper.py line 34),
made explicit: a mapping from group names to built modules. -/
abbrev Cache := List (String × Wrapper)

/-- Cache lookup (`name in _CACHE` and `_CACHE[name]`). -/
def lookupMod (c : Cache) (name : String) : Option Wrapper :=
  match c with
  | [] => none
  | (k, m) :: rest => if k = name then some m else lookupMod rest name

/-- Cache store (`_CACHE[name] = ...`). -/
def storeMod (c : Cache) (name : String) (m : Wrapper) : Cache :=
  match c with
  | [] => [(name, m)]
  | (k, m0) :: rest =>
    if k = name then (name, m) :: rest else (k, m0) :: storeMod rest name m

/-- Embedding of `get_module` (lib_wrapper.py lines 101-104) with the cache
state passed explicitly.  The returned `Nat` counts how many times
`load_module` (the build with its initialization side effects) ran during
the call: on a cache hit the cached module is returned with no build; on a
miss the module is built once, stored, and returned. -/
def get_module (env : CliEnv) (mwf : MiddlewareFactory) (name : String)
    (cache : Cache) : Except UnknownGroupError (Wrapper × Cache × Nat) :=
  match lookupMod cache name with
  | some m => Except.ok (m, cache, 0)
  | none =>
    match load_module env mwf name with
    | Except.error e => Except.error e
    | Except.ok m => Except.ok (m, storeMod cache name m, 1)

/-- Embedding of the `Library` facade (lib_wrapper.py lines 420-427): holds
the environment and middleware factory passed at construction. -/
structure Library where
  env : CliEnv
  middleware_factory : MiddlewareFactory
deriving DecidableEq

/-- Embedding of `Library.__getattr__` (lib_wrapper.py lines 426-427):
attribute access resolves the group through `get_module` with this
instance's environment and middleware factory. -/
def Library.getattr (l : Library) (name : String) (cache : Cache) :
    Except UnknownGroupError (Wrapper × Cache × Nat) :=
  get_module l.env l.middleware_factory name cache

/-- Path of the guarded sync-options daemon endpoint (from the tests:
`/remote/set_sync_options`). -/
def syncOptionsPath : String := "/remote/set_sync_options"

/-- Path of the set-certificates daemon endpoint (from the tests:
`/remote/set_certs`). -/
def setCertsPath : String := "/remote/set_certs"

/-- Modelled from the spec: the statically declared guarded route subset of
the daemon (`pcs/daemon/app/sinatra_remote.py` is not among the sources; the
spec lists the sync-options endpoint, GET and POST guarded identically, and
the set-certificates endpoint). -/
def guardedPaths : List String := [syncOptionsPath, setCertsPath]

/-- Modelled from the spec: whether a route is guarded by the per-process
lock.  Guarding depends on the path only — GET and POST are guarded
identically. -/
def isGuarded (_method : String) (path : String) : Bool :=
  guardedPaths.contains path

/-- Who holds the per-process mutual-exclusion lock: an outside acquirer
(the test scenario acquires it externally) or the guarded request handler. -/
inductive Holder where
  | outside
  | handler
deriving DecidableEq

/-- Progress of one guarded request through the daemon. -/
inductive ReqPhase where
  | waiting
  | processing
  | done
deriving DecidableEq

/-- Modelled from the spec: joint state of the per-process lock and of one
pending guarded request on the daemon's single-threaded cooperative event
loop. -/
structure SyncState where
  lockHolder : Option Holder
  req : ReqPhase
deriving DecidableEq

/-- Modelled from the spec: one cooperative scheduler step of the daemon.
The guarded handler acquires the lock only when it is free, then proxies and
responds while holding it, and releases it on completion; an outside holder
may release the lock at any time. -/
inductive SyncStep : SyncState → SyncState → Prop where
  | acquire : SyncStep ⟨none, ReqPhase.waiting⟩ ⟨some Holder.handler, ReqPhase.processing⟩
  | finish : SyncStep ⟨some Holder.handler, ReqPhase.processing⟩ ⟨none, ReqPhase.done⟩
  | release_outside (p : ReqPhase) : SyncStep ⟨some Holder.outside, p⟩ ⟨none, p⟩

/-- Reachability under cooperative scheduler steps. -/
def SyncReachable : SyncState → SyncState → Prop :=
  Relation.ReflTransGen SyncStep

/-- Reachability within a bounded number of scheduler steps. -/
inductive ReachIn : Nat → SyncState → SyncState → Prop where
  | refl (n : Nat) (s : SyncState) : ReachIn n s s
  | step {n : Nat} {s t u : SyncState} : SyncStep s t → ReachIn n t u → ReachIn (n + 1) s u

/-- Modelled from the spec: the configured client timeout, measured in
cooperative scheduler steps. -/
def requestTimeoutSteps : Nat := 2

/-- Response relayed from the legacy engine (status and body verbatim). -/
structure ProxyResponse where
  status : Nat
  body : String
deriving DecidableEq

/-- Observable actions of the set-certificates handler, in order. -/
inductive DaemonEvent where
  | responded (r : ProxyResponse)
  | reload_certs
deriving DecidableEq

/-- Modelled from the spec: the set-certificates handler proxies the request
to the legacy engine, relays its response, and — only when the proxied call
returned a success outcome — invokes the TLS-material reload follow-up
action once, after the response is obtained.  The result is the ordered list
of observable actions for a given proxied response. -/
def set_certs_handler (r : ProxyResponse) : List DaemonEvent :=
  [DaemonEvent.responded r] ++ (if r.status = 200 then [DaemonEvent.reload_certs] else [])

/-! Helper lemmas. -/

theorem lookupKey_setKey_self (m : List (String × String)) (k v : String) :
    lookupKey (setKey m k v) k = some v := by
  induction m with
  | nil => simp [setKey, lookupKey]
  | cons p rest ih =>
    by_cases h : p.1 = k
    · simp [setKey, h, lookupKey]
    · simp [setKey, h, lookupKey, ih]

theorem lookupKey_setKey_other (m : List (String × String)) (k k2 v : String)
    (h : k2 ≠ k) : lookupKey (setKey m k v) k2 = lookupKey m k2 := by
  have h2 : ¬ k = k2 := fun hh => h hh.symm
  induction m with
  | nil => simp [setKey, lookupKey, h2]
  | cons p rest ih =>
    obtain ⟨k0, v0⟩ := p
    by_cases h1 : k0 = k
    · subst h1
      simp only [setKey, if_pos rfl, lookupKey]
      rw [if_neg h2, if_neg h2]
    · simp only [setKey, if_neg h1, lookupKey]
      by_cases h3 : k0 = k2
      · rw [if_pos h3, if_pos h3]
      · rw [if_neg h3, if_neg h3, ih]

theorem reflect_corosync_cib_data (lib : LibraryEnvironment) (cli : CliEnv) :
    (reflect_corosync lib cli).cib_data = cli.cib_data := by
  unfold reflect_corosync
  split <;> rfl

theorem reflect_booth_cib_data (lib : LibraryEnvironment) (cli : CliEnv) :
    (reflect_booth lib cli).cib_data = cli.cib_data := by
  unfold reflect_booth
  rcases cli.booth with _ | m
  · rfl
  · dsimp only
    split <;> rfl

theorem reflect_cib_corosync_data (lib : LibraryEnvironment) (cli : CliEnv) :
    (reflect_cib lib cli).corosync_conf_data = cli.corosync_conf_data := by
  unfold reflect_cib
  split <;> rfl

theorem reflect_booth_corosync_data (lib : LibraryEnvironment) (cli : CliEnv) :
    (reflect_booth lib cli).corosync_conf_data = cli.corosync_conf_data := by
  unfold reflect_booth
  rcases cli.booth with _ | m
  · rfl
  · dsimp only
    split <;> rfl

theorem reflect_cib_booth (lib : LibraryEnvironment) (cli : CliEnv) :
    (reflect_cib lib cli).booth = cli.booth := by
  unfold reflect_cib
  split <;> rfl

theorem reflect_corosync_booth (lib : LibraryEnvironment) (cli : CliEnv) :
    (reflect_corosync lib cli).booth = cli.booth := by
  unfold reflect_corosync
  split <;> rfl

theorem reflect_cib_mocked (lib : LibraryEnvironment) (cli : CliEnv)
    (h : lib.is_cib_live = false) :
    (reflect_cib lib cli).cib_data = lib.final_mocked_cib_content := by
  unfold reflect_cib
  rw [if_neg]
  simp [h]

theorem reflect_corosync_mocked (lib : LibraryEnvironment) (cli : CliEnv)
    (h : lib.is_corosync_conf_live = false) :
    (reflect_corosync lib cli).corosync_conf_data = lib.get_corosync_conf_data := by
  unfold reflect_corosync
  rw [if_neg]
  simp [h]

theorem reflect_booth_truthy (lib : LibraryEnvironment) (cli : CliEnv)
    (m : List (String × String)) (hb : cli.booth = some m) (hne : m ≠ []) :
    reflect_booth lib cli =
      { cli with booth := some (setKey m "modified_env" (booth_export_opt lib.booth)) } := by
  unfold reflect_booth
  rw [hb]
  dsimp only
  rw [if_neg hne]

/-! Concrete demonstration inputs used by the witnesses. -/

def demoCliMocked : CliEnv where
  report_processor := "rp"
  user := "hacluster"
  groups := ["haclient"]
  cib_data := some "cib-old"
  corosync_conf_data := some "coro-old"
  booth := none
  known_hosts_getter := "khg"
  request_timeout := some 10

def demoLibFinal : LibraryEnvironment :=
  { cli_env_to_lib_env demoCliMocked with
    cib_data := some "cib-new"
    corosync_conf_data := some "coro-new" }

def demoCmdOk : LibraryEnvironment → Unit → Except LibraryEnvError (Nat × LibraryEnvironment) :=
  fun _ _ => Except.ok (7, demoLibFinal)

def demoErr : LibraryEnvError :=
  ⟨[⟨Severity.error, "cib verification failed"⟩, ⟨Severity.info, "details follow"⟩]⟩

def demoCmdErr : LibraryEnvironment → Unit → Except LibraryEnvError (Nat × LibraryEnvironment) :=
  fun _ _ => Except.error demoErr

def demoCliLive : CliEnv :=
  { demoCliMocked with cib_data := none, corosync_conf_data := none }

def demoLibLive : LibraryEnvironment := cli_env_to_lib_env demoCliLive

def demoCliBooth : CliEnv :=
  { demoCliMocked with booth := some [("name", "booth1")] }

def demoLibBooth : LibraryEnvironment := cli_env_to_lib_env demoCliBooth

/-! Claim theorems. -/

/-- C1: for every command bound through the middleware chain and every mocked
resource (cib supplied as `cib_data`, corosync configuration supplied as
`corosync_conf_data`), if the library command returns normally then after the
call the front-end environment's field for that resource equals exactly the
library environment's final in-memory value for it (round-trip law).  The
liveness-preservation hypotheses restate the spec invariant that the
live/mocked marks are fixed at construction of the per-call library
environment. -/
theorem bind_round_trip_mocked {α β : Type}
    (cmd : LibraryEnvironment → β → Except LibraryEnvError (α × LibraryEnvironment))
    (cli : CliEnv) (args : β) (r : α) (lib2 : LibraryEnvironment)
    (hcmd : cmd (cli_env_to_lib_env cli) args = Except.ok (r, lib2))
    (hcib : lib2.is_cib_live = (cli_env_to_lib_env cli).is_cib_live)
    (hcoro : lib2.is_corosync_conf_live = (cli_env_to_lib_env cli).is_corosync_conf_live) :
    (cli.cib_data.isSome = true →
      (bind_run cmd cli args).2.cib_data = lib2.final_mocked_cib_content) ∧
    (cli.corosync_conf_data.isSome = true →
      (bind_run cmd cli args).2.corosync_conf_data = lib2.get_corosync_conf_data) := by
  have hrun : (bind_run cmd cli args).2 = lib_env_to_cli_env lib2 cli := by
    unfold bind_run
    rw [hcmd]
  constructor
  · intro hs
    have hl : lib2.is_cib_live = false := by
      rw [hcib]
      show cli.cib_data.isNone = false
      rcases hc : cli.cib_data with _ | v
      · rw [hc] at hs
        simp at hs
      · rfl
    rw [hrun]
    unfold lib_env_to_cli_env
    rw [reflect_booth_cib_data, reflect_corosync_cib_data, reflect_cib_mocked _ _ hl]
  · intro hs
    have hl : lib2.is_corosync_conf_live = false := by
      rw [hcoro]
      show cli.corosync_conf_data.isNone = false
      rcases hc : cli.corosync_conf_data with _ | v
      · rw [hc] at hs
        simp at hs
      · rfl
    rw [hrun]
    unfold lib_env_to_cli_env
    rw [reflect_booth_corosync_data, reflect_corosync_mocked _ _ hl]

/-- Witness for C1 at a concrete mocked front environment and a concrete
command that rewrites both mocked blobs. -/
theorem bind_round_trip_mocked_witness :
    (bind_run demoCmdOk demoCliMocked ()).2.cib_data = demoLibFinal.final_mocked_cib_content ∧
    (bind_run demoCmdOk demoCliMocked ()).2.corosync_conf_data =
      demoLibFinal.get_corosync_conf_data := by
  have h := bind_round_trip_mocked demoCmdOk demoCliMocked () 7 demoLibFinal rfl rfl rfl
  exact ⟨h.1 rfl, h.2 rfl⟩

/-- C2: back-reflection of mocked resources into the front-end environment
runs only on normal return of the library command: when the command raises a
structured failure, `bind`'s inner `run` propagates the failure and the
front-end environment comes out exactly as it went in — no field is updated
from the library environment. -/
theorem bind_run_error_no_reflection {α β : Type}
    (cmd : LibraryEnvironment → β → Except LibraryEnvError (α × LibraryEnvironment))
    (cli : CliEnv) (args : β) (e : LibraryEnvError)
    (hcmd : cmd (cli_env_to_lib_env cli) args = Except.error e) :
    bind_run cmd cli args = (Except.error e, cli) := by
  unfold bind_run
  rw [hcmd]

/-- Witness for C2 at a concrete failing command: the front environment is
returned unchanged. -/
theorem bind_run_error_no_reflection_witness :
    bind_run demoCmdErr demoCliMocked () = (Except.error demoErr, demoCliMocked) :=
  bind_run_error_no_reflection demoCmdErr demoCliMocked () demoErr rfl

/-- C5: when a bound command invocation raises a structured-failure batch,
`decorated_run` emits all of the batch's collected reports (in order, each
with its severity-appropriate presentation) and produces exactly one terminal
outcome, a process exit with code 1; on success the command's result is
returned untouched.  The `CliOutcome` value is the single terminal signal of
the invocation. -/
theorem decorated_run_escalation {α β : Type} (chain : List (MiddlewareUnit β))
    (cmd : LibraryEnvironment → β → Except LibraryEnvError (α × LibraryEnvironment))
    (cli : CliEnv) (args : β) (r : α) (e : LibraryEnvError) :
    ((run_with_middleware chain (bind_run cmd) cli args).1 = Except.ok r →
      decorated_run chain cmd cli args = CliOutcome.success r) ∧
    ((run_with_middleware chain (bind_run cmd) cli args).1 = Except.error e →
      decorated_run chain cmd cli args =
        CliOutcome.exited (e.unprocessed.map presentReport) 1) := by
  constructor
  · intro h
    unfold decorated_run
    rw [h]
  · intro h
    unfold decorated_run
    rw [h]
    rfl

/-- Witness for C5: a succeeding and a failing concrete invocation through an
empty middleware chain. -/
theorem decorated_run_escalation_witness :
    decorated_run [] demoCmdOk demoCliMocked () = CliOutcome.success 7 ∧
    decorated_run [] demoCmdErr demoCliMocked () =
      CliOutcome.exited (demoErr.unprocessed.map presentReport) 1 :=
  ⟨(decorated_run_escalation [] demoCmdOk demoCliMocked () 7 demoErr).1 rfl,
   (decorated_run_escalation [] demoCmdErr demoCliMocked () 7 demoErr).2 rfl⟩

/-- C6: for a live resource (no override blob supplied), back-reflection
leaves that resource's field in the front-end environment untouched:
`lib_env_to_cli_env` does not assign `cib_data` when the cib is live and does
not assign `corosync_conf_data` when the corosync configuration is live. -/
theorem lib_env_to_cli_env_live_untouched (lib : LibraryEnvironment) (cli : CliEnv) :
    (lib.is_cib_live = true → (lib_env_to_cli_env lib cli).cib_data = cli.cib_data) ∧
    (lib.is_corosync_conf_live = true →
      (lib_env_to_cli_env lib cli).corosync_conf_data = cli.corosync_conf_data) := by
  constructor
  · intro h
    unfold lib_env_to_cli_env
    rw [reflect_booth_cib_data, reflect_corosync_cib_data]
    unfold reflect_cib
    rw [if_pos h]
  · intro h
    unfold lib_env_to_cli_env
    rw [reflect_booth_corosync_data]
    unfold reflect_corosync
    rw [if_pos h, reflect_cib_corosync_data]

/-- Witness for C6 at a concrete fully-live environment. -/
theorem lib_env_to_cli_env_live_untouched_witness :
    (lib_env_to_cli_env demoLibLive demoCliLive).cib_data = demoCliLive.cib_data ∧
    (lib_env_to_cli_env demoLibLive demoCliLive).corosync_conf_data =
      demoCliLive.corosync_conf_data := by
  have h := lib_env_to_cli_env_live_untouched demoLibLive demoCliLive
  exact ⟨h.1 rfl, h.2 rfl⟩

/-- C7: whenever the front-end environment carries a ticket-manager (booth)
configuration (a present, non-empty mapping — the source condition is Python
truthiness of the dict), back-reflection exports the library environment's
booth state through the auxiliary path: the exported value is stored under
the `"modified_env"` key inside the existing booth mapping, every other key
of the mapping is preserved, and the field itself is not replaced. -/
theorem lib_env_to_cli_env_booth_modified_env (lib : LibraryEnvironment) (cli : CliEnv)
    (m : List (String × String)) (be : BoothLibEnv)
    (hbooth : cli.booth = some m) (hne : m ≠ []) (hlb : lib.booth = some be) :
    ∃ m2, (lib_env_to_cli_env lib cli).booth = some m2 ∧
      lookupKey m2 "modified_env" = some (booth_export be) ∧
      (∀ k, k ≠ "modified_env" → lookupKey m2 k = lookupKey m k) := by
  have hb2 : (reflect_corosync lib (reflect_cib lib cli)).booth = some m := by
    rw [reflect_corosync_booth, reflect_cib_booth, hbooth]
  have hrb := reflect_booth_truthy lib (reflect_corosync lib (reflect_cib lib cli)) m hb2 hne
  refine ⟨setKey m "modified_env" (booth_export_opt lib.booth), ?_, ?_, ?_⟩
  · unfold lib_env_to_cli_env
    rw [hrb]
  · rw [lookupKey_setKey_self, hlb]
    rfl
  · intro k hk
    exact lookupKey_setKey_other m "modified_env" k _ hk

/-- Witness for C7 at a concrete front environment whose booth mapping holds
one ordinary key. -/
theorem lib_env_to_cli_env_booth_modified_env_witness :
    ∃ m2, (lib_env_to_cli_env demoLibBooth demoCliBooth).booth = some m2 ∧
      lookupKey m2 "modified_env" = some (booth_export ⟨[("name", "booth1")]⟩) ∧
      (∀ k, k ≠ "modified_env" → lookupKey m2 k = lookupKey [("name", "booth1")] k) :=
  lib_env_to_cli_env_booth_modified_env demoLibBooth demoCliBooth
    [("name", "booth1")] ⟨[("name", "booth1")]⟩ rfl (by simp) rfl

theorem lookupMod_storeMod_self (c : Cache) (name : String) (m : Wrapper) :
    lookupMod (storeMod c name m) name = some m := by
  induction c with
  | nil => simp [storeMod, lookupMod]
  | cons p rest ih =>
    obtain ⟨k0, m0⟩ := p
    by_cases h : k0 = name
    · simp [storeMod, h, lookupMod]
    · simp [storeMod, h, lookupMod, ih]

set_option maxHeartbeats 1000000 in
theorem load_module_env_eq (env : CliEnv) (mwf : MiddlewareFactory) (name : String)
    (m : Wrapper) (h : load_module env mwf name = Except.ok m) : m.env = env := by
  unfold load_module at h
  by_cases hn1 : name = "acl"
  · rw [if_pos hn1] at h
    injection h with hm
    subst hm
    rfl
  rw [if_neg hn1] at h
  by_cases hn2 : name = "alert"
  · rw [if_pos hn2] at h
    injection h with hm
    subst hm
    rfl
  rw [if_neg hn2] at h
  by_cases hn3 : name = "booth"
  · rw [if_pos hn3] at h
    injection h with hm
    subst hm
    rfl
  rw [if_neg hn3] at h
  by_cases hn4 : name = "cluster"
  · rw [if_pos hn4] at h
    injection h with hm
    subst hm
    rfl
  rw [if_neg hn4] at h
  by_cases hn5 : name = "remote_node"
  · rw [if_pos hn5] at h
    injection h with hm
    subst hm
    rfl
  rw [if_neg hn5] at h
  by_cases hn6 : name = "constraint_colocation"
  · rw [if_pos hn6] at h
    injection h with hm
    subst hm
    rfl
  rw [if_neg hn6] at h
  by_cases hn7 : name = "constraint_order"
  · rw [if_pos hn7] at h
    injection h with hm
    subst hm
    rfl
  rw [if_neg hn7] at h
  by_cases hn8 : name = "constraint_ticket"
  · rw [if_pos hn8] at h
    injection h with hm
    subst hm
    rfl
  rw [if_neg hn8] at h
  by_cases hn9 : name = "fencing_topology"
  · rw [if_pos hn9] at h
    injection h with hm
    subst hm
    rfl
  rw [if_neg hn9] at h
  by_cases hn10 : name = "node"
  · rw [if_pos hn10] at h
    injection h with hm
    subst hm
    rfl
  rw [if_neg hn10] at h
  by_cases hn11 : name = "pcsd"
  · rw [if_pos hn11] at h
    injection h with hm
    subst hm
    rfl
  rw [if_neg hn11] at h
  by_cases hn12 : name = "qdevice"
  · rw [if_pos hn12] at h
    injection h with hm
    subst hm
    rfl
  rw [if_neg hn12] at h
  by_cases hn13 : name = "quorum"
  · rw [if_pos hn13] at h
    injection h with hm
    subst hm
    rfl
  rw [if_neg hn13] at h
  by_cases hn14 : name = "resource_agent"
  · rw [if_pos hn14] at h
    injection h with hm
    subst hm
    rfl
  rw [if_neg hn14] at h
  by_cases hn15 : name = "resource"
  · rw [if_pos hn15] at h
    injection h with hm
    subst hm
    rfl
  rw [if_neg hn15] at h
  by_cases hn16 : name = "cib_options"
  · rw [if_pos hn16] at h
    injection h with hm
    subst hm
    rfl
  rw [if_neg hn16] at h
  by_cases hn17 : name = "stonith"
  · rw [if_pos hn17] at h
    injection h with hm
    subst hm
    rfl
  rw [if_neg hn17] at h
  by_cases hn18 : name = "sbd"
  · rw [if_pos hn18] at h
    injection h with hm
    subst hm
    rfl
  rw [if_neg hn18] at h
  by_cases hn19 : name = "stonith_agent"
  · rw [if_pos hn19] at h
    injection h with hm
    subst hm
    rfl
  rw [if_neg hn19] at h
  exact Except.noConfusion h

theorem load_module_declared_ok (env : CliEnv) (mwf : MiddlewareFactory) :
    ∀ name ∈ declaredGroupNames, ∃ m, load_module env mwf name = Except.ok m := by
  intro name h
  fin_cases h <;> exact ⟨_, rfl⟩

def demoMwf : MiddlewareFactory := ⟨"cib-mw", "coro-mw", "booth-mw"⟩

def demoMwfB : MiddlewareFactory := ⟨"cib-mw-b", "coro-mw-b", "booth-mw-b"⟩

def demoLibraryA : Library := ⟨demoCliMocked, demoMwf⟩

def demoLibraryB : Library := ⟨demoCliLive, demoMwfB⟩

def demoClusterWrapper : Wrapper :=
  bind_all demoCliMocked [demoMwf.cib]
    ["add_link", "add_nodes", "node_clear", "remove_links", "remove_nodes",
     "remove_nodes_from_cib", "setup", "update_link", "verify"]

/-- C3: resolving any name outside the fixed enumerated set of command-group
names fails: `load_module` raises the unknown-group failure (the spec's
`UnknownGroupError`; the source raises an exception with this message), and
`get_module` propagates it whenever the cache does not hold the name — which
it never does for an undeclared name, since only `load_module` results are
ever stored. -/
theorem load_module_unknown_group (env : CliEnv) (mwf : MiddlewareFactory)
    (name : String) (cache : Cache)
    (hname : name ∉ declaredGroupNames) (hcache : lookupMod cache name = none) :
    load_module env mwf name = Except.error ("No library part " ++ name) ∧
    get_module env mwf name cache = Except.error ("No library part " ++ name) := by
  have hlm : load_module env mwf name = Except.error ("No library part " ++ name) := by
    have hn1 : ¬ name = "acl" := fun hh => hname (by rw [hh]; decide)
    have hn2 : ¬ name = "alert" := fun hh => hname (by rw [hh]; decide)
    have hn3 : ¬ name = "booth" := fun hh => hname (by rw [hh]; decide)
    have hn4 : ¬ name = "cluster" := fun hh => hname (by rw [hh]; decide)
    have hn5 : ¬ name = "remote_node" := fun hh => hname (by rw [hh]; decide)
    have hn6 : ¬ name = "constraint_colocation" := fun hh => hname (by rw [hh]; decide)
    have hn7 : ¬ name = "constraint_order" := fun hh => hname (by rw [hh]; decide)
    have hn8 : ¬ name = "constraint_ticket" := fun hh => hname (by rw [hh]; decide)
    have hn9 : ¬ name = "fencing_topology" := fun hh => hname (by rw [hh]; decide)
    have hn10 : ¬ name = "node" := fun hh => hname (by rw [hh]; decide)
    have hn11 : ¬ name = "pcsd" := fun hh => hname (by rw [hh]; decide)
    have hn12 : ¬ name = "qdevice" := fun hh => hname (by rw [hh]; decide)
    have hn13 : ¬ name = "quorum" := fun hh => hname (by rw [hh]; decide)
    have hn14 : ¬ name = "resource_agent" := fun hh => hname (by rw [hh]; decide)
    have hn15 : ¬ name = "resource" := fun hh => hname (by rw [hh]; decide)
    have hn16 : ¬ name = "cib_options" := fun hh => hname (by rw [hh]; decide)
    have hn17 : ¬ name = "stonith" := fun hh => hname (by rw [hh]; decide)
    have hn18 : ¬ name = "sbd" := fun hh => hname (by rw [hh]; decide)
    have hn19 : ¬ name = "stonith_agent" := fun hh => hname (by rw [hh]; decide)
    unfold load_module
    rw [if_neg hn1, if_neg hn2, if_neg hn3, if_neg hn4, if_neg hn5, if_neg hn6, if_neg hn7, if_neg hn8, if_neg hn9, if_neg hn10, if_neg hn11, if_neg hn12, if_neg hn13, if_neg hn14, if_neg hn15, if_neg hn16, if_neg hn17, if_neg hn18, if_neg hn19]
  refine ⟨hlm, ?_⟩
  unfold get_module
  rw [hcache, hlm]

/-- Witness for C3 at the concrete undeclared name `"bogus"` and the empty
cache. -/
theorem load_module_unknown_group_witness :
    load_module demoCliMocked demoMwf "bogus" = Except.error ("No library part " ++ "bogus") ∧
    get_module demoCliMocked demoMwf "bogus" [] =
      Except.error ("No library part " ++ "bogus") :=
  load_module_unknown_group demoCliMocked demoMwf "bogus" [] (by decide) rfl

/-- C4: for every declared group name, the first `get_module` call builds the
operation set through `load_module` (build count 1) and stores it in the
cache, and a subsequent call with that name returns the identical cached
object with build count 0 — initialization side effects run at most once per
process per name. -/
theorem get_module_builds_once (env : CliEnv) (mwf : MiddlewareFactory)
    (name : String) (cache : Cache)
    (hdecl : name ∈ declaredGroupNames) (hfresh : lookupMod cache name = none) :
    ∃ m, get_module env mwf name cache = Except.ok (m, storeMod cache name m, 1) ∧
      get_module env mwf name (storeMod cache name m) =
        Except.ok (m, storeMod cache name m, 0) := by
  obtain ⟨m, hm⟩ := load_module_declared_ok env mwf name hdecl
  refine ⟨m, ?_, ?_⟩
  · unfold get_module
    rw [hfresh, hm]
  · unfold get_module
    rw [lookupMod_storeMod_self]

/-- Witness for C4 at the declared name `"acl"` and the empty cache. -/
theorem get_module_builds_once_witness :
    ∃ m, get_module demoCliMocked demoMwf "acl" [] =
        Except.ok (m, storeMod [] "acl" m, 1) ∧
      get_module demoCliMocked demoMwf "acl" (storeMod [] "acl" m) =
        Except.ok (m, storeMod [] "acl" m, 0) :=
  get_module_builds_once demoCliMocked demoMwf "acl" [] (by decide) rfl

/-- C10: the module cache is keyed by the group name alone, ignoring the
environment and middleware-factory arguments — after a `Library` instance
resolved a fresh name, any other `Library` instance resolving the same name
against the resulting cache gets back exactly the module built during the
first call, with no rebuild (build count 0), and that module's commands are
bound to the first instance's environment. -/
theorem library_cache_ignores_env (l1 l2 : Library) (name : String) (cache : Cache)
    (m : Wrapper) (c1 : Cache) (k : Nat)
    (hfresh : lookupMod cache name = none)
    (h1 : Library.getattr l1 name cache = Except.ok (m, c1, k)) :
    Library.getattr l2 name c1 = Except.ok (m, c1, 0) ∧ m.env = l1.env := by
  unfold Library.getattr get_module at h1
  rw [hfresh] at h1
  cases hl : load_module l1.env l1.middleware_factory name with
  | error e =>
    rw [hl] at h1
    exact Except.noConfusion h1
  | ok m0 =>
    rw [hl] at h1
    injection h1 with h2
    rw [Prod.mk.injEq, Prod.mk.injEq] at h2
    obtain ⟨hm, hc, hk⟩ := h2
    subst hm
    subst hc
    constructor
    · unfold Library.getattr get_module
      rw [lookupMod_storeMod_self]
    · exact load_module_env_eq l1.env l1.middleware_factory name m0 hl

/-- Witness for C10: two concrete `Library` instances with different
environments and middleware factories sharing one cache entry for
`"cluster"`. -/
theorem library_cache_ignores_env_witness :
    Library.getattr demoLibraryB "cluster" (storeMod [] "cluster" demoClusterWrapper) =
      Except.ok (demoClusterWrapper, storeMod [] "cluster" demoClusterWrapper, 0) ∧
    demoClusterWrapper.env = demoLibraryA.env :=
  library_cache_ignores_env demoLibraryA demoLibraryB "cluster" []
    demoClusterWrapper (storeMod [] "cluster" demoClusterWrapper) 1 rfl rfl

/-- C8: for the guarded sync-options daemon endpoint, with GET and POST
guarded identically: while the per-process lock is held by an outside
acquirer, a request to the endpoint never completes (safety invariant over
all reachable scheduler states); releasing the lock is always possible, and
once it is free the pending request completes within the configured timeout
(here the timeout measured in cooperative scheduler steps). -/
theorem sync_options_mutual_exclusion :
    (isGuarded "GET" syncOptionsPath = true ∧ isGuarded "POST" syncOptionsPath = true) ∧
    (∀ s, SyncReachable ⟨some Holder.outside, ReqPhase.waiting⟩ s →
      s.lockHolder = some Holder.outside → s.req ≠ ReqPhase.done) ∧
    (SyncStep ⟨some Holder.outside, ReqPhase.waiting⟩ ⟨none, ReqPhase.waiting⟩ ∧
      ReachIn requestTimeoutSteps ⟨none, ReqPhase.waiting⟩ ⟨none, ReqPhase.done⟩) := by
  refine ⟨⟨rfl, rfl⟩, ?_, SyncStep.release_outside ReqPhase.waiting, ?_⟩
  · have inv : ∀ s, SyncReachable ⟨some Holder.outside, ReqPhase.waiting⟩ s →
        (s.lockHolder = some Holder.outside → s.req = ReqPhase.waiting) := by
      intro s h
      induction h with
      | refl => intro _; rfl
      | tail hab hbc ih =>
        cases hbc with
        | acquire => intro hh; exact absurd hh (by simp)
        | finish => intro hh; exact absurd hh (by simp)
        | release_outside p => intro hh; exact absurd hh (by simp)
    intro s h hout
    rw [inv s h hout]
    decide
  · exact ReachIn.step SyncStep.acquire (ReachIn.step SyncStep.finish (ReachIn.refl 0 _))

/-- C9: the set-certificates daemon endpoint invokes the TLS-material reload
follow-up action exactly once, after the response is obtained, when the
proxied legacy-engine call returns a success outcome; when the proxied call
returns a failure outcome the reload action is never invoked. -/
theorem set_certs_reload_policy (r : ProxyResponse) :
    (r.status = 200 → set_certs_handler r =
      [DaemonEvent.responded r, DaemonEvent.reload_certs]) ∧
    (r.status ≠ 200 → set_certs_handler r = [DaemonEvent.responded r]) := by
  constructor
  · intro h
    unfold set_certs_handler
    rw [if_pos h]
    rfl
  · intro h
    unfold set_certs_handler
    rw [if_neg h]
    rfl

/-- Witness for C9 at the two proxied responses of the tests: a 200 success
and a 400 failure. -/
theorem set_certs_reload_policy_witness :
    set_certs_handler ⟨200, "success"⟩ =
      [DaemonEvent.responded ⟨200, "success"⟩, DaemonEvent.reload_certs] ∧
    set_certs_handler ⟨400, "cannot save ssl certificate without ssl key"⟩ =
      [DaemonEvent.responded ⟨400, "cannot save ssl certificate without ssl key"⟩] :=
  ⟨(set_certs_reload_policy ⟨200, "success"⟩).1 rfl,
   (set_certs_reload_policy ⟨400, "cannot save ssl certificate without ssl key"⟩).2 (by decide)⟩
